import Mathlib

/-!
Shallow embedding of the A2A message hub and client of the
Moltiverse-TaskFlow-Agent repository.

The embedded code is `src/local_a2a_server.py` (class `LocalA2AServer`:
`handle_message`, `process_message`, `broadcast_to_agents`) and
`src/a2a_network.py` (class `A2ANetwork`: `connect_to_server`,
`send_message`).

Modelling conventions:
* JSON values are the inductive type `Json`; Python `dict`s are
  association lists with unique keys (Python dicts cannot hold duplicate
  keys), and key update preserves insertion order exactly as CPython does
  (replace in place when present, append when absent).
* Python exceptions that escape the embedded functions are made explicit:
  `Json.pyIndex` models `d[k]` (raising `KeyError` on a missing key and
  `TypeError` on a non-dict), `Json.pyGet` / `Json.pyGetD` model
  `d.get(k)` / `d.get(k, default)` (raising `AttributeError` on a
  non-dict).
* Connection handles are natural numbers; a handle whose transport is
  already closed is described by a predicate `dead : Nat → Bool`, and a
  `send` to a dead handle raises `ConnectionClosed` exactly where the
  Python `websockets` call would.
* `random.uniform(a, b)` returns a float in the closed interval `[a, b]`;
  it is modelled by a rational parameter together with the interval
  bounds as hypotheses (such a value is always finite, never NaN).
* `datetime.now().isoformat()` is modelled by an opaque `String`
  parameter, and `time.time()` by a rational parameter.
-/

namespace TaskFlow

/-- JSON values as exchanged on the wire (numbers as rationals). -/
inductive Json where
  | null
  | bool (b : Bool)
  | num (q : ℚ)
  | str (s : String)
  | arr (elems : List Json)
  | obj (fields : List (String × Json))

/-- Python exceptions that can escape the embedded functions. -/
inductive PyExn where
  | keyError
  | typeError
  | attributeError
  | connectionClosed
deriving DecidableEq

mutual

/-- Python `==` between two JSON values: structural equality. -/
def Json.beq : Json → Json → Bool
  | .null, .null => true
  | .bool a, .bool b => a == b
  | .num a, .num b => a == b
  | .str a, .str b => a == b
  | .arr a, .arr b => Json.beqList a b
  | .obj a, .obj b => Json.beqPairs a b
  | _, _ => false

/-- Python `==` between two JSON arrays, elementwise. -/
def Json.beqList : List Json → List Json → Bool
  | [], [] => true
  | x :: xs, y :: ys => Json.beq x y && Json.beqList xs ys
  | _, _ => false

/-- Python `==` between two JSON dicts (as ordered association lists). -/
def Json.beqPairs : List (String × Json) → List (String × Json) → Bool
  | [], [] => true
  | (k1, v1) :: xs, (k2, v2) :: ys => k1 == k2 && Json.beq v1 v2 && Json.beqPairs xs ys
  | _, _ => false

end

/-- Python `==` between two optional JSON values (`None == None` is
true, `None == v` is false for a JSON value `v`). -/
def optBeq : Option Json → Option Json → Bool
  | none, none => true
  | some a, some b => Json.beq a b
  | _, _ => false

/-- First value bound to key `k` in an association list. -/
def lookupPairs (kvs : List (String × Json)) (k : String) : Option Json :=
  (kvs.find? (fun p => p.1 = k)).map Prod.snd

/-- `d.get(k)` restricted to dicts: `none` when the key is absent. -/
def Json.lookup : Json → String → Option Json
  | .obj kvs, k => lookupPairs kvs k
  | _, _ => none

/-- CPython dict assignment `d[k] = v` on the underlying association
list: replace the first binding of `k` in place, append when absent. -/
def setPairs : List (String × Json) → String → Json → List (String × Json)
  | [], k, v => [(k, v)]
  | p :: rest, k, v => if p.1 = k then (k, v) :: rest else p :: setPairs rest k v

/-- `d[k] = v` for dicts (the embedded code only assigns into dicts). -/
def Json.setKey : Json → String → Json → Json
  | .obj kvs, k, v => .obj (setPairs kvs k v)
  | j, _, _ => j

/-- Python `d[k]` read: `KeyError` on a dict without the key, `TypeError`
on a value that is not a dict (string-keyed indexing). -/
def Json.pyIndex : Json → String → Except PyExn Json
  | .obj kvs, k =>
      match lookupPairs kvs k with
      | some v => .ok v
      | none => .error .keyError
  | _, _ => .error .typeError

/-- Python `d.get(k)`: `AttributeError` when the receiver is not a dict. -/
def Json.pyGet : Json → String → Except PyExn (Option Json)
  | .obj kvs, k => .ok (lookupPairs kvs k)
  | _, _ => .error .attributeError

/-- Python `d.get(k, default)`. -/
def Json.pyGetD (j : Json) (k : String) (d : Json) : Except PyExn Json :=
  match j with
  | .obj kvs => .ok ((lookupPairs kvs k).getD d)
  | _ => .error .attributeError

/-- Python truthiness of a JSON value (`if x:`). -/
def Json.truthy : Json → Bool
  | .null => false
  | .bool b => b
  | .num q => decide (q ≠ 0)
  | .str s => !s.isEmpty
  | .arr elems => !elems.isEmpty
  | .obj fields => !fields.isEmpty

/-- Truthiness of an optional JSON value (`None` is falsy). -/
def optTruthy : Option Json → Bool
  | none => false
  | some j => j.truthy

/-!
## The Hub (`src/local_a2a_server.py`, class `LocalA2AServer`)

Connection handles (websockets) are natural numbers.  The constructor
initialises `clients` (the Registry, a set: handles are pairwise
distinct) and `message_history`; `agent_registry` is never read or
written after initialisation and is omitted.
-/

/-- One entry of `self.message_history` as appended by
`handle_message`: the decoded message, `data.get("source")`, and the
`received_at` timestamp. -/
structure HistEntry where
  message : Json
  source : Option Json
  receivedAt : String

/-- Mutable state of `LocalA2AServer`: the client Registry and the
message history. -/
structure HubState where
  clients : List Nat
  messageHistory : List HistEntry

/-- The three `random.uniform` draws made for a `market_data_request`:
`uniform(1.0, 100.0)`, `uniform(100000, 10000000)`,
`uniform(50000, 5000000)`. -/
structure Rand where
  price : ℚ
  liquidity : ℚ
  volume : ℚ

/-- Outcome of one call to `handle_message`: the hub state afterwards,
the messages actually transmitted in order (broadcast deliveries first,
then the direct reply, each tagged with the receiving handle), and the
exception escaping the call, if any. -/
structure HubOutcome where
  state : HubState
  sends : List (Nat × Json)
  exn : Option PyExn

/-- The `error_msg` dict built by `handle_message` on a
`json.JSONDecodeError`. -/
def errorReply (now : String) : Json :=
  .obj [("type", .str "error"), ("message", .str "Invalid JSON format"),
        ("timestamp", .str now)]

/-- `LocalA2AServer.broadcast_to_agents(message, exclude_source)`
(src/local_a2a_server.py lines 100-118).  Returns the updated state and
the deliveries made, in registry order.  If `self.clients` is empty it
returns before augmenting the message.  Otherwise the message gains
`broadcast=True` and `broadcast_timestamp`, and the loop over a copy of
the client set: skips a client when `exclude_source` is truthy and
`message.get("source") == exclude_source` (a condition that does not
depend on the client being visited), otherwise sends; a send to a dead
handle raises `ConnectionClosed`, which is caught and the handle is
collected; collected handles are then `discard`ed from the registry. -/
def broadcastToAgents (st : HubState) (dead : Nat → Bool)
    (message : Json) (excludeSource : Option Json) (now : String) :
    HubState × List (Nat × Json) :=
  if st.clients.isEmpty then (st, [])
  else
    let msg := (message.setKey "broadcast" (Json.bool true)).setKey
      "broadcast_timestamp" (Json.str now)
    let skip : Bool := optTruthy excludeSource && optBeq (msg.lookup "source") excludeSource
    let sends := st.clients.filterMap
      (fun c => if skip || dead c then none else some (c, msg))
    let disconnected := st.clients.filter (fun c => !skip && dead c)
    ({ st with clients := st.clients.filter (fun c => !disconnected.contains c) },
     sends)

/-- `LocalA2AServer.process_message(data)` (src/local_a2a_server.py
lines 51-98).  `data` is always a dict here (its caller has already
evaluated `data['type']`).  Returns the state after any broadcast, the
broadcast deliveries, and the direct response (`none` for an
unrecognized type).  The `.get` chains of the print statements in the
`trade_signal` / `security_alert` branches are kept because they raise
`AttributeError` when the payload is present but not a dict. -/
def processMessage (st : HubState) (dead : Nat → Bool) (rand : Rand)
    (now : String) (data : Json) :
    Except PyExn (HubState × List (Nat × Json) × Option Json) := do
  let msgType ← data.pyGet "type"
  if optBeq msgType (some (.str "handshake")) then
    pure (st, [], some (.obj [("type", .str "handshake_response"),
      ("status", .str "connected"),
      ("capabilities", .arr [.str "trade_signals", .str "security_alerts",
                             .str "market_data"]),
      ("timestamp", .str now)]))
  else if optBeq msgType (some (.str "trade_signal")) then do
    let payload ← data.pyGetD "payload" (Json.obj [])
    let _ ← payload.pyGet "pair"
    let _ ← payload.pyGet "direction"
    let src ← data.pyGet "source"
    let (st1, sends) := broadcastToAgents st dead data src now
    let payload2 ← data.pyGetD "payload" (Json.obj [])
    let sigId ← payload2.pyGet "id"
    pure (st1, sends, some (.obj [("type", .str "trade_signal_ack"),
      ("status", .str "received"), ("signal_id", sigId.getD Json.null),
      ("timestamp", .str now)]))
  else if optBeq msgType (some (.str "security_alert")) then do
    let payload ← data.pyGetD "payload" (Json.obj [])
    let _ ← payload.pyGet "alert_type"
    let src ← data.pyGet "source"
    let (st1, sends) := broadcastToAgents st dead data src now
    let payload2 ← data.pyGetD "payload" (Json.obj [])
    let alertId ← payload2.pyGet "id"
    pure (st1, sends, some (.obj [("type", .str "security_alert_ack"),
      ("status", .str "received"), ("alert_id", alertId.getD Json.null),
      ("timestamp", .str now)]))
  else if optBeq msgType (some (.str "market_data_request")) then do
    let payload ← data.pyGetD "payload" (Json.obj [])
    let pair ← payload.pyGetD "pair" (Json.str "MONAD/ETH")
    pure (st, [], some (.obj [("type", .str "market_data_response"),
      ("pair", pair), ("price", .num rand.price),
      ("liquidity", .num rand.liquidity),
      ("volume_24h", .num rand.volume), ("timestamp", .str now)]))
  else
    pure (st, [], none)

/-- `LocalA2AServer.handle_message(websocket, message)`
(src/local_a2a_server.py lines 27-49).  `raw` is the result of
`json.loads(message)`: `none` when the text is not decodable (the
caught `JSONDecodeError` branch replies with `errorReply`), otherwise
the decoded value.  The logging f-string evaluates `data['type']`
before the history append, so a decoded value without a `"type"` key
(or that is not a dict) raises out of the function with the history
untouched.  A direct send to a dead sender raises `ConnectionClosed`,
which `handle_message` does not catch. -/
def handleMessage (st : HubState) (dead : Nat → Bool) (rand : Rand)
    (now : String) (sender : Nat) (raw : Option Json) : HubOutcome :=
  match raw with
  | none =>
      if dead sender then ⟨st, [], some .connectionClosed⟩
      else ⟨st, [(sender, errorReply now)], none⟩
  | some data =>
      match data.pyIndex "type" with
      | .error e => ⟨st, [], some e⟩
      | .ok _ =>
        -- `data` is a dict here, so `data.get("source")` cannot raise.
        let src := data.lookup "source"
        let st1 : HubState :=
          { st with messageHistory := st.messageHistory ++ [⟨data, src, now⟩] }
        match processMessage st1 dead rand now data with
        | .error e => ⟨st1, [], some e⟩
        | .ok (st2, sends, none) => ⟨st2, sends, none⟩
        | .ok (st2, sends, some r) =>
            if dead sender then ⟨st2, sends, some .connectionClosed⟩
            else ⟨st2, sends ++ [(sender, r)], none⟩

/-!
## The Client (`src/a2a_network.py`, class `A2ANetwork`)
-/

/-- Mutable state of `A2ANetwork` relevant to `connect_to_server` and
`send_message`: the agent identity, the `is_connected` flag, whether
`self.websocket` holds a connection object (truthy) rather than `None`,
and the `sent_messages` buffer. -/
structure ClientState where
  localAgentId : String
  isConnected : Bool
  hasWebsocket : Bool
  sentMessages : List Json

/-- The stamping performed by `send_message` before transmission:
`message["source"] = self.local_agent_id`;
`message["timestamp"] = time.time()`. -/
def stamp (cs : ClientState) (now : ℚ) (message : Json) : Json :=
  (message.setKey "source" (Json.str cs.localAgentId)).setKey
    "timestamp" (Json.num now)

/-- Outcome of one call to `send_message`: the client state afterwards,
the returned boolean, and the messages actually transmitted on the
websocket. -/
structure SendOutcome where
  state : ClientState
  retval : Bool
  transmitted : List Json

/-- `A2ANetwork.send_message(message)` (src/a2a_network.py lines 75-92).
`transportOk` tells whether `self.websocket.send` succeeds (raises
otherwise).  If `is_connected` or `websocket` is falsy: return `False`
untouched.  Otherwise, inside `try`: stamp `source`/`timestamp` (item
assignment on a non-dict raises `TypeError`, caught by the blanket
`except`, returning `False`), transmit, append to `sent_messages`, then
log `message['type']` — which raises `KeyError` when the dict has no
`"type"` key, caught by the blanket `except`, so the call returns
`False` even though the message was transmitted and appended. -/
def sendMessage (cs : ClientState) (transportOk : Bool) (now : ℚ)
    (message : Json) : SendOutcome :=
  if !cs.isConnected || !cs.hasWebsocket then ⟨cs, false, []⟩
  else
    match message with
    | .obj _ =>
        let msg := stamp cs now message
        if transportOk then
          let cs1 := { cs with sentMessages := cs.sentMessages ++ [msg] }
          if (msg.lookup "type").isSome then ⟨cs1, true, [msg]⟩
          else ⟨cs1, false, [msg]⟩
        else ⟨cs, false, []⟩
    | _ => ⟨cs, false, []⟩

/-- How far one execution of `connect_to_server` gets before an
exception (if any): `websockets.connect` raises; or it succeeds and the
handshake `websocket.send` raises; or everything succeeds. -/
inductive ConnectAttempt where
  | openFails
  | handshakeSendFails
  | succeeds

/-- Outcome of one call to `connect_to_server`: the client state
afterwards, the returned boolean, and whether
`asyncio.create_task(self.listen_for_messages())` was reached. -/
structure ConnectOutcome where
  state : ClientState
  retval : Bool
  loopStarted : Bool

/-- `A2ANetwork.connect_to_server()` (src/a2a_network.py lines 19-41).
Inside `try`: `self.websocket = await websockets.connect(...)` then
`self.is_connected = True`, then the handshake send, then the listen
task, then `return True`; any exception lands in the blanket `except`,
which only returns `False` — it does not reset `is_connected` or
`self.websocket`.  The handshake is sent on the raw websocket, not via
`send_message`, so `sent_messages` is untouched. -/
def connectToServer (cs : ClientState) (attempt : ConnectAttempt) :
    ConnectOutcome :=
  match attempt with
  | .openFails => ⟨cs, false, false⟩
  | .handshakeSendFails =>
      ⟨{ cs with hasWebsocket := true, isConnected := true }, false, false⟩
  | .succeeds =>
      ⟨{ cs with hasWebsocket := true, isConnected := true }, true, true⟩

/-!
## Concrete scenario inputs

A hub with three connected peers 0 (= A), 1 (= B), 2 (= C); agent A is
`"agent-1"`.  `rand0` is one admissible triple of `random.uniform`
draws.
-/

/-- A hub whose Registry holds the three handles A = 0, B = 1, C = 2. -/
def hubABC : HubState := ⟨[0, 1, 2], []⟩

/-- No handle is dead: every send succeeds. -/
def allAlive : Nat → Bool := fun _ => false

/-- One admissible triple of `random.uniform` draws. -/
def rand0 : Rand := ⟨2, 200000, 60000⟩

/-- A `trade_signal` envelope as sent by peer A (source already stamped
to the sending agent identity by the client, as `send_message` does). -/
def tradeSignalA : Json := .obj [("type", .str "trade_signal"), ("source", .str "agent-1"),
  ("payload", .obj [("id", .str "s1"), ("pair", .str "MONAD/ETH"), ("direction", .str "BUY")])]

/-- A `security_alert` envelope as sent by peer A. -/
def securityAlertA : Json := .obj [("type", .str "security_alert"), ("source", .str "agent-1"),
  ("payload", .obj [("id", .str "a1"), ("alert_type", .str "rug_pull")])]

/-- The `trade_signal_ack` that `process_message` builds for
`tradeSignalA` at time `"T"`. -/
def tradeSignalAckA : Json := .obj [("type", .str "trade_signal_ack"), ("status", .str "received"),
  ("signal_id", .str "s1"), ("timestamp", .str "T")]

/-- The `security_alert_ack` that `process_message` builds for
`securityAlertA` at time `"T"`. -/
def securityAlertAckA : Json := .obj [("type", .str "security_alert_ack"), ("status", .str "received"),
  ("alert_id", .str "a1"), ("timestamp", .str "T")]

/-- A client that has connected (flag and websocket set), empty buffer. -/
def csConnected : ClientState := ⟨"agent-1", true, true, []⟩

/-- A client that has never connected. -/
def csDisconnected : ClientState := ⟨"agent-1", false, false, []⟩

/-!
## Key-update lemmas

CPython dict update versus lookup, used to read off the fields of a
stamped envelope.
-/

theorem lookupPairs_setPairs_self (kvs : List (String × Json)) (k : String) (v : Json) :
    lookupPairs (setPairs kvs k v) k = some v := by
  induction kvs with
  | nil => simp [setPairs, lookupPairs]
  | cons p rest ih =>
      by_cases h : p.1 = k
      · simp [setPairs, h, lookupPairs]
      · have e : setPairs (p :: rest) k v = p :: setPairs rest k v := by
          simp [setPairs, h]
        rw [e]
        simpa [lookupPairs, h] using ih

theorem lookupPairs_setPairs_of_ne (kvs : List (String × Json)) (k k' : String)
    (v : Json) (hne : k' ≠ k) :
    lookupPairs (setPairs kvs k' v) k = lookupPairs kvs k := by
  induction kvs with
  | nil => simp [setPairs, lookupPairs, hne]
  | cons p rest ih =>
      by_cases h : p.1 = k'
      · have e : setPairs (p :: rest) k' v = (k', v) :: rest := by
          simp [setPairs, h]
        rw [e]
        simp [lookupPairs, hne, h]
      · have e : setPairs (p :: rest) k' v = p :: setPairs rest k' v := by
          simp [setPairs, h]
        rw [e]
        by_cases h2 : p.1 = k
        · simp [lookupPairs, h2]
        · simpa [lookupPairs, h2] using ih

theorem stamp_lookup_source (cs : ClientState) (now : ℚ) (kvs : List (String × Json)) :
    (stamp cs now (Json.obj kvs)).lookup "source" = some (Json.str cs.localAgentId) := by
  simp [stamp, Json.setKey, Json.lookup,
    lookupPairs_setPairs_of_ne _ _ _ _ (by decide : "timestamp" ≠ "source"),
    lookupPairs_setPairs_self]

theorem stamp_lookup_timestamp (cs : ClientState) (now : ℚ) (kvs : List (String × Json)) :
    (stamp cs now (Json.obj kvs)).lookup "timestamp" = some (Json.num now) := by
  simp [stamp, Json.setKey, Json.lookup, lookupPairs_setPairs_self]

theorem stamp_lookup_type (cs : ClientState) (now : ℚ) (kvs : List (String × Json)) :
    (stamp cs now (Json.obj kvs)).lookup "type" = (Json.obj kvs).lookup "type" := by
  simp [stamp, Json.setKey, Json.lookup,
    lookupPairs_setPairs_of_ne _ _ _ _ (by decide : "timestamp" ≠ "type"),
    lookupPairs_setPairs_of_ne _ _ _ _ (by decide : "source" ≠ "type")]

/-!
## Claim theorems
-/

/-- C1: with peers A, B, C connected and A sending a `trade_signal`
(or a `security_alert`) whose `source` is its own identity, the hub
transmits only the direct ack back to A — the broadcast loop skips
every client, because its exclusion test compares the message's own
`source` field (equal to `exclude_source` by construction) instead of
anything about the client being visited.  B and C receive nothing, so
the claimed delivery of the rebroadcast to B and C fails on the code. -/
theorem hub_trade_signal_reaches_no_peer :
    (handleMessage hubABC allAlive rand0 "T" 0 (some tradeSignalA)).sends = [(0, tradeSignalAckA)] ∧
    (handleMessage hubABC allAlive rand0 "T" 0 (some tradeSignalA)).exn = none ∧
    (handleMessage hubABC allAlive rand0 "T" 0 (some securityAlertA)).sends = [(0, securityAlertAckA)] ∧
    (handleMessage hubABC allAlive rand0 "T" 0 (some securityAlertA)).exn = none :=
  ⟨rfl, rfl, rfl, rfl⟩

/-- C2: handling a message that is valid JSON but lacks a `type` field
(first conjunct) or is not a JSON object (second conjunct) raises an
uncaught exception out of `handle_message` — the logging f-string
evaluates `data["type"]` and only `json.JSONDecodeError` is caught —
so the receive loop does not continue past such a message, refuting
the claimed exception safety. -/
theorem hub_handle_raises_on_typeless_json :
    handleMessage hubABC allAlive rand0 "T" 0 (some (Json.obj [("source", Json.str "agent-1")])) =
      ⟨hubABC, [], some PyExn.keyError⟩ ∧
    handleMessage hubABC allAlive rand0 "T" 0 (some (Json.arr [Json.num 1])) =
      ⟨hubABC, [], some PyExn.typeError⟩ :=
  ⟨rfl, rfl⟩

/-- C3: with peers A = 0, B = 1, C = 2 connected, B already dead, and A
sending a `trade_signal` carrying its own `source`: the hub transmits
only the ack to A; C receives no broadcast and the dead handle B is
still in the Registry afterwards — the exclusion test skips every
client before any send could fail, so the claimed delivery-to-C and
removal-of-B both fail on the code. -/
theorem hub_dead_peer_survives_broadcast :
    (handleMessage hubABC (fun c => c == 1) rand0 "T" 0 (some tradeSignalA)).sends = [(0, tradeSignalAckA)] ∧
    (handleMessage hubABC (fun c => c == 1) rand0 "T" 0 (some tradeSignalA)).state.clients = [0, 1, 2] ∧
    (handleMessage hubABC (fun c => c == 1) rand0 "T" 0 (some tradeSignalA)).exn = none :=
  ⟨rfl, rfl, rfl⟩

/-- C4: a message that is not decodable as JSON (`raw = none`) makes
the hub send exactly one direct reply to the same sender — the `error`
envelope whose `message` field is `"Invalid JSON format"` — with no
broadcast, no state change, and no escaping exception (the loop
continues), provided the sender's own connection is alive. -/
theorem hub_malformed_json_error_reply (st : HubState) (dead : Nat → Bool) (rand : Rand)
    (now : String) (sender : Nat) (h : dead sender = false) :
    handleMessage st dead rand now sender none = ⟨st, [(sender, errorReply now)], none⟩ ∧
    (errorReply now).lookup "message" = some (Json.str "Invalid JSON format") := by
  refine ⟨?_, rfl⟩
  simp [handleMessage, h]

/-- C4 witness: the malformed-input theorem applied to the concrete
three-peer hub. -/
theorem hub_malformed_json_error_reply_witness :
    handleMessage hubABC allAlive rand0 "T" 0 none = ⟨hubABC, [(0, errorReply "T")], none⟩ ∧
    (errorReply "T").lookup "message" = some (Json.str "Invalid JSON format") :=
  hub_malformed_json_error_reply hubABC allAlive rand0 "T" 0 rfl

/-- C5: for every envelope (a JSON object carrying a `type` field, per
the Envelope schema) passed to `send_message`: when the client is not
connected the call is a no-op returning `false`; when connected (flag
and websocket both set) and the transport send succeeds, the
transmitted message is the input with `source` overwritten to the
client's identity and `timestamp` to the send time, and the call
returns `true`; when the transport send raises, the call returns
`false` and nothing is transmitted or buffered. -/
theorem client_send_contract (cs : ClientState) (tOk : Bool) (now : ℚ)
    (kvs : List (String × Json))
    (hty : ((Json.obj kvs).lookup "type").isSome = true) :
    (cs.isConnected = false → sendMessage cs tOk now (.obj kvs) = ⟨cs, false, []⟩) ∧
    (cs.isConnected = true → cs.hasWebsocket = true → tOk = true →
      sendMessage cs tOk now (.obj kvs) =
        ⟨{ cs with sentMessages := cs.sentMessages ++ [stamp cs now (.obj kvs)] },
          true, [stamp cs now (.obj kvs)]⟩) ∧
    (cs.isConnected = true → cs.hasWebsocket = true → tOk = false →
      sendMessage cs tOk now (.obj kvs) = ⟨cs, false, []⟩) ∧
    (stamp cs now (Json.obj kvs)).lookup "source" = some (Json.str cs.localAgentId) ∧
    (stamp cs now (Json.obj kvs)).lookup "timestamp" = some (Json.num now) := by
  refine ⟨?_, ?_, ?_, stamp_lookup_source cs now kvs, stamp_lookup_timestamp cs now kvs⟩
  · intro h; simp [sendMessage, h]
  · intro h1 h2 h3
    simp [sendMessage, h1, h2, h3, stamp_lookup_type, hty]
  · intro h1 h2 h3
    simp [sendMessage, h1, h2, h3]

/-- C5 witness: the send contract applied to a connected client sending
a `handshake` envelope over a working transport. -/
theorem client_send_contract_witness :
    sendMessage csConnected true 5 (Json.obj [("type", Json.str "handshake")]) =
      ⟨{ csConnected with sentMessages := csConnected.sentMessages ++
          [stamp csConnected 5 (Json.obj [("type", Json.str "handshake")])] },
        true, [stamp csConnected 5 (Json.obj [("type", Json.str "handshake")])]⟩ :=
  (client_send_contract csConnected true 5 [("type", Json.str "handshake")] rfl).2.1 rfl rfl rfl

/-- C6: when `websockets.connect` succeeds but the handshake send
raises, `connect_to_server` returns `false` and does not start the
listen loop, yet leaves `is_connected = true` — the blanket `except`
never resets the flag — refuting the claim that every failure leaves
the connected flag false.  (When the transport open itself fails, the
flag does stay false.) -/
theorem client_connect_handshake_failure :
    (connectToServer csDisconnected ConnectAttempt.handshakeSendFails).retval = false ∧
    (connectToServer csDisconnected ConnectAttempt.handshakeSendFails).loopStarted = false ∧
    (connectToServer csDisconnected ConnectAttempt.handshakeSendFails).state.isConnected = true ∧
    (connectToServer csDisconnected ConnectAttempt.openFails).retval = false ∧
    (connectToServer csDisconnected ConnectAttempt.openFails).loopStarted = false ∧
    (connectToServer csDisconnected ConnectAttempt.openFails).state.isConnected = false :=
  ⟨rfl, rfl, rfl, rfl, rfl, rfl⟩

/-- C7: a `market_data_request` carrying a pair string `p` gets a
direct `market_data_response` whose `pair` equals `p` exactly and whose
`price`, `liquidity` and `volume_24h` are non-negative (rationals drawn
from the closed `random.uniform` intervals — in particular finite),
with no broadcast and no state change. -/
theorem hub_market_data_pair_and_nonneg (st : HubState) (dead : Nat → Bool)
    (rand : Rand) (now : String) (src : Json) (p : String)
    (h1 : 1 ≤ rand.price) (h2 : rand.price ≤ 100)
    (h3 : 100000 ≤ rand.liquidity) (h4 : rand.liquidity ≤ 10000000)
    (h5 : 50000 ≤ rand.volume) (h6 : rand.volume ≤ 5000000) :
    ∃ resp : Json,
      processMessage st dead rand now (Json.obj [("type", Json.str "market_data_request"),
          ("source", src), ("payload", Json.obj [("pair", Json.str p)])]) =
        .ok (st, [], some resp) ∧
      resp.lookup "type" = some (Json.str "market_data_response") ∧
      resp.lookup "pair" = some (Json.str p) ∧
      (∃ q : ℚ, resp.lookup "price" = some (Json.num q) ∧ 0 ≤ q) ∧
      (∃ q : ℚ, resp.lookup "liquidity" = some (Json.num q) ∧ 0 ≤ q) ∧
      (∃ q : ℚ, resp.lookup "volume_24h" = some (Json.num q) ∧ 0 ≤ q) :=
  ⟨Json.obj [("type", Json.str "market_data_response"), ("pair", Json.str p),
      ("price", Json.num rand.price), ("liquidity", Json.num rand.liquidity),
      ("volume_24h", Json.num rand.volume), ("timestamp", Json.str now)],
    rfl, rfl, rfl,
    ⟨rand.price, rfl, le_trans (by norm_num) h1⟩,
    ⟨rand.liquidity, rfl, le_trans (by norm_num) h3⟩,
    ⟨rand.volume, rfl, le_trans (by norm_num) h5⟩⟩

/-- C7 witness: the market-data theorem applied to a request for
`"MONAD/USDC"` with the concrete draws `rand0`. -/
theorem hub_market_data_pair_and_nonneg_witness :
    ∃ resp : Json,
      processMessage hubABC allAlive rand0 "T" (Json.obj [("type", Json.str "market_data_request"),
          ("source", Json.str "agent-1"), ("payload", Json.obj [("pair", Json.str "MONAD/USDC")])]) =
        .ok (hubABC, [], some resp) ∧
      resp.lookup "type" = some (Json.str "market_data_response") ∧
      resp.lookup "pair" = some (Json.str "MONAD/USDC") ∧
      (∃ q : ℚ, resp.lookup "price" = some (Json.num q) ∧ 0 ≤ q) ∧
      (∃ q : ℚ, resp.lookup "liquidity" = some (Json.num q) ∧ 0 ≤ q) ∧
      (∃ q : ℚ, resp.lookup "volume_24h" = some (Json.num q) ∧ 0 ≤ q) :=
  hub_market_data_pair_and_nonneg hubABC allAlive rand0 "T" (Json.str "agent-1") "MONAD/USDC"
    (by norm_num [rand0]) (by norm_num [rand0]) (by norm_num [rand0])
    (by norm_num [rand0]) (by norm_num [rand0]) (by norm_num [rand0])

/-- C8: a decoded message whose `type` value is present but
unrecognized gets no reply and no broadcast, the connection stays open
and the message is appended to the history (first conjunct); but a
decoded message with no `type` key at all — equally unrecognized, and
covered by the claim's "history receives every decoded message" — is
not appended: `data["type"]` in the logging line raises before the
append (second conjunct), refuting the unconditional recording. -/
theorem hub_unknown_type_recorded_but_typeless_crashes :
    handleMessage hubABC allAlive rand0 "T" 0
        (some (Json.obj [("type", Json.str "mystery"), ("source", Json.str "agent-1")])) =
      ⟨⟨[0, 1, 2], [⟨Json.obj [("type", Json.str "mystery"), ("source", Json.str "agent-1")],
          some (Json.str "agent-1"), "T"⟩]⟩, [], none⟩ ∧
    handleMessage hubABC allAlive rand0 "T" 0 (some (Json.obj [])) =
      ⟨hubABC, [], some PyExn.keyError⟩ :=
  ⟨rfl, rfl⟩

/-- C9 counterexample: a connected client sending the JSON object `{}`
over a working transport — the message is stamped, transmitted and
appended to `sent_messages`, yet the call returns `false`, because the
logging line reads `message["type"]` after the append and the raised
`KeyError` lands in the blanket `except`.  This refutes "appended if
and only if the call returns true" for type-less inputs. -/
theorem client_send_typeless_appended_but_false :
    sendMessage csConnected true 5 (Json.obj []) =
      ⟨⟨"agent-1", true, true, [Json.obj [("source", Json.str "agent-1"), ("timestamp", Json.num 5)]]⟩,
        false,
        [Json.obj [("source", Json.str "agent-1"), ("timestamp", Json.num 5)]]⟩ :=
  rfl

/-- C9 (amended): for every call to `send_message` whose message
carries a `type` field: when the client is not connected the call is a
no-op returning `false`; when the transport send raises, the buffer is
unchanged; and the envelope is appended to `sent_messages` if and only
if the call returns `true`. -/
theorem client_send_append_iff (cs : ClientState) (tOk : Bool) (now : ℚ) (m : Json)
    (hty : (m.lookup "type").isSome = true) :
    (cs.isConnected = false → sendMessage cs tOk now m = ⟨cs, false, []⟩) ∧
    (tOk = false → (sendMessage cs tOk now m).state.sentMessages = cs.sentMessages) ∧
    ((sendMessage cs tOk now m).retval = true ↔
      (sendMessage cs tOk now m).state.sentMessages = cs.sentMessages ++ [stamp cs now m]) := by
  cases m with
  | obj kvs =>
      refine ⟨fun h => by simp [sendMessage, h], ?_, ?_⟩
      · intro h3
        by_cases h1 : cs.isConnected
        · by_cases h2 : cs.hasWebsocket
          · simp [sendMessage, h1, h2, h3]
          · simp [sendMessage, h2]
        · simp [sendMessage, h1]
      · by_cases h1 : cs.isConnected
        · by_cases h2 : cs.hasWebsocket
          · cases tOk
            · simp [sendMessage, h1, h2]
            · simp [sendMessage, h1, h2, stamp_lookup_type, hty]
          · simp [sendMessage, h2]
        · simp [sendMessage, h1]
  | null => simp [Json.lookup] at hty
  | bool b => simp [Json.lookup] at hty
  | num q => simp [Json.lookup] at hty
  | str s => simp [Json.lookup] at hty
  | arr elems => simp [Json.lookup] at hty

/-- C9 witness: the amended append-iff-true equivalence at a connected
client sending a `handshake` envelope over a working transport. -/
theorem client_send_append_iff_witness :
    (sendMessage csConnected true 5 (Json.obj [("type", Json.str "handshake")])).retval = true ↔
      (sendMessage csConnected true 5 (Json.obj [("type", Json.str "handshake")])).state.sentMessages =
        csConnected.sentMessages ++ [stamp csConnected 5 (Json.obj [("type", Json.str "handshake")])] :=
  (client_send_append_iff csConnected true 5 (Json.obj [("type", Json.str "handshake")]) rfl).2.2

/-- C10: a `market_data_request` whose payload is absent (first
conjunct) or is a dict without a `pair` field (second conjunct) is
answered with a `market_data_response` whose `pair` is the default
`"MONAD/ETH"`, with no broadcast and no state change. -/
theorem hub_market_data_default_pair (st : HubState) (dead : Nat → Bool) (rand : Rand)
    (now : String) (src : Json) :
    processMessage st dead rand now
        (Json.obj [("type", Json.str "market_data_request"), ("source", src)]) =
      .ok (st, [], some (Json.obj [("type", Json.str "market_data_response"),
        ("pair", Json.str "MONAD/ETH"), ("price", Json.num rand.price),
        ("liquidity", Json.num rand.liquidity), ("volume_24h", Json.num rand.volume),
        ("timestamp", Json.str now)])) ∧
    processMessage st dead rand now
        (Json.obj [("type", Json.str "market_data_request"), ("source", src),
          ("payload", Json.obj [])]) =
      .ok (st, [], some (Json.obj [("type", Json.str "market_data_response"),
        ("pair", Json.str "MONAD/ETH"), ("price", Json.num rand.price),
        ("liquidity", Json.num rand.liquidity), ("volume_24h", Json.num rand.volume),
        ("timestamp", Json.str now)])) :=
  ⟨rfl, rfl⟩

end TaskFlow
